import Mathlib

/-!
Verification of the `schedule` CalDAV calendar library.

The Python source is shallowly embedded: Python strings are Lean `String`s,
Python datetimes are wall-clock minutes since an epoch together with an
optional fixed UTC offset (timezone identifiers are modelled by their
offsets, in minutes), dictionaries are association lists with distinct
keys, exceptions are `Except`, and `None` is `Option.none`.
-/

namespace Schedule

/-! ## Identity codec

`CalendarEvent.autoname` builds `self.calendar ++ "|" ++ uuid`, where
`self.calendar` is already `user|calendarId`; `format_event` builds
`f"{user}|{event.parent.id}|{uid}"`.  The CRUD helpers parse a name with
`name.split("|")` and unpack exactly three parts. -/

/-- Composite event name `user|calendarId|eventUid` as built by
`CalendarEvent.autoname` and by `format_event`. -/
def buildEventName (user calId eventUid : String) : String :=
  user ++ "|" ++ calId ++ "|" ++ eventUid

/-- Python `name.split("|")` on a string, modelled character-wise. -/
def splitName (s : String) : List String :=
  (s.data.splitOn '|').map String.mk

/-- The triple unpacking `user, cal_id, event_uid = name.split("|")` done by
`add_event`, `get_event`, `update_event` and `delete_event`; a split that
does not yield exactly three parts raises (here: `none`). -/
def parseEventName (name : String) : Option (String × String × String) :=
  match splitName name with
  | [u, c, e] => some (u, c, e)
  | _ => none

/-! ## Timezone normalizer

`schedule.utils.convert_to_utc` and the framework helper
`convert_utc_to_system_timezone`.  A Python `datetime` is modelled as its
wall-clock reading in minutes since an epoch plus an optional fixed UTC
offset in minutes (`tzinfo is None` is `tz = none`); timezone identifiers
are modelled by their offsets. -/

/-- Python datetime: wall-clock minutes since the epoch, optional UTC offset
in minutes (`none` = naive). -/
structure PyDateTime where
  wall : Int
  tz : Option Int
deriving DecidableEq, Repr

/-- The absolute instant denoted by a timezone-aware datetime (minutes since
the epoch, UTC); `none` for a naive datetime. -/
def instantOf (d : PyDateTime) : Option Int :=
  d.tz.map (fun off => d.wall - off)

/-- Embeds `convert_to_utc(date_time, from_timezone, naive)` from
`schedule/utils/__init__.py`: a naive datetime first gets the source
timezone attached (`ZoneInfo(from_timezone or get_system_timezone())`),
then the value is converted to UTC with `astimezone`, and with
`naive=True` the zone tag is stripped. -/
def convert_to_utc (date_time : PyDateTime) (from_timezone : Option Int)
    (naive : Bool) (systemTz : Int) : PyDateTime :=
  let dt := if date_time.tz.isNone then
      { date_time with tz := some (from_timezone.getD systemTz) }
    else date_time
  let utc_dt : PyDateTime := { wall := dt.wall - dt.tz.getD 0, tz := some 0 }
  if naive then { utc_dt with tz := none } else utc_dt

/-- Modelled from the spec: `frappe.utils.convert_utc_to_system_timezone` is
the framework collaborator used by the read path (`toLocalDisplay`); it
interprets its argument as UTC (attaching the UTC zone when the value is
naive) and converts it into the configured system timezone. -/
def convert_utc_to_system_timezone (d : PyDateTime) (systemTz : Int) : PyDateTime :=
  let aware := if d.tz.isNone then { d with tz := some 0 } else d
  { wall := aware.wall - aware.tz.getD 0 + systemTz, tz := some systemTz }

/-! ## Attendee parameter extraction

`get_param` from `format_event` in
`frappe_calendar/.../calendar_event.py`. -/

/-- A raw attendee parameter value as stored in `attendee.params`: either a
bare string or a list of strings. -/
inductive ParamValue where
  | bare (s : String)
  | seq (l : List String)
deriving DecidableEq, Repr

/-- Embeds `get_param(value, default)`: a Python-falsy value (`None`, empty
string, empty list) yields the default, a nonempty list yields its first
element, a nonempty bare string yields itself. -/
def get_param (value : Option ParamValue) (default : Option String) :
    Option String :=
  match value with
  | some (ParamValue.seq l) =>
    match l with
    | x :: _ => some x
    | [] => default
  | some (ParamValue.bare s) => if s = "" then default else some s
  | none => default

/-! ## VEVENT object model

vobject content lines carry a `.value` that the code reads and writes; a
value is a string, a datetime, or (on one write path) a raw attendee list.
Attendee properties live in `attendee_list` and carry a parameter map. -/

/-- Attendee input dictionary handed to `CalDAVClient.add_event` inside
`event_data["attendees"]`; absent dictionary keys are `none`. -/
structure AttInput where
  email : String
  cn : Option String := none
  role : Option String := none
  partstat : Option String := none
  rsvp : Option String := none
deriving DecidableEq, Repr

/-- The `.value` of a VEVENT content line. -/
inductive PropVal where
  | s (v : String)
  | dt (d : PyDateTime)
  | lst (l : List AttInput)
deriving DecidableEq, Repr

/-- Python `str()` of a datetime; the embedding renders the wall clock and
offset injectively, since no claim depends on the exact ISO text. -/
def dtStr (d : PyDateTime) : String :=
  "dt(" ++ toString d.wall ++ "," ++
    (match d.tz with
     | none => "naive"
     | some off => toString off) ++ ")"

/-- Python `str()` of a content-line value; every claim only inspects the
string and datetime cases. -/
def pvStr : PropVal → String
  | PropVal.s v => v
  | PropVal.dt d => dtStr d
  | PropVal.lst l => "(list of " ++ toString l.length ++ " attendee dicts)"

/-- Python truthiness of a content-line value: the empty string is falsy and
an empty list is falsy; datetimes are always truthy. -/
def truthyPV : PropVal → Bool
  | PropVal.s v => v ≠ ""
  | PropVal.dt _ => true
  | PropVal.lst l => l ≠ []

/-- An attendee property: its `.value` (a `mailto:` address) and its
parameter dictionary `.params`. -/
structure Attendee where
  value : String
  params : List (String × ParamValue)
deriving DecidableEq, Repr

/-- Python `attendee.params.get(key)`. -/
def paramGet (ps : List (String × ParamValue)) (key : String) :
    Option ParamValue :=
  (ps.find? (fun p => p.1 = key)).map Prod.snd

/-- A VEVENT: scalar content lines (name, `.value`) in order, plus the
attendee properties. -/
structure VEvent where
  props : List (String × PropVal)
  attendee_list : List Attendee
deriving DecidableEq, Repr

/-- Python `getattr(vevent, key, None).value`: the first content line named
`key`, if any. -/
def getProp (ve : VEvent) (key : String) : Option PropVal :=
  (ve.props.find? (fun p => p.1 = key)).map Prod.snd

/-- Python `hasattr(vevent, key)` restricted to scalar content lines. -/
def hasProp (ve : VEvent) (key : String) : Bool :=
  ve.props.any (fun p => p.1 = key)

/-- Python `vevent.add(key).value = v`: appends a new content line. -/
def addProp (ve : VEvent) (key : String) (v : PropVal) : VEvent :=
  { ve with props := ve.props ++ [(key, v)] }

/-- Overwrites the `.value` of the first content line named `key`. -/
def overwriteFirst (props : List (String × PropVal)) (key : String)
    (v : PropVal) : List (String × PropVal) :=
  match props with
  | [] => []
  | p :: rest =>
    if p.1 = key then (key, v) :: rest
    else p :: overwriteFirst rest key v

/-! ## Write path: `CalDAVClient.add_event` -/

/-- One value of the `event_data` dictionary passed to `add_event`. -/
inductive AddValue where
  | pynone
  | pv (v : PropVal)
  | atts (l : List AttInput)
deriving DecidableEq, Repr

/-- Embeds the attendee rendering loop of `add_event`: `CN` and `ROLE` only
when truthy, `PARTSTAT` defaulting to `NEEDS-ACTION`, `RSVP` defaulting to
`TRUE` (via `dict.get`, so only an absent key takes the default), value
`mailto:` plus the email. -/
def buildAttendee (att : AttInput) : Attendee :=
  let ps : List (String × ParamValue) := []
  let ps := match att.cn with
    | some s => if s ≠ "" then ps ++ [("CN", ParamValue.bare s)] else ps
    | none => ps
  let ps := match att.role with
    | some s => if s ≠ "" then ps ++ [("ROLE", ParamValue.bare s)] else ps
    | none => ps
  let ps := ps ++ [("PARTSTAT", ParamValue.bare (att.partstat.getD "NEEDS-ACTION"))]
  let ps := ps ++ [("RSVP", ParamValue.bare (att.rsvp.getD "TRUE"))]
  { value := "mailto:" ++ att.email, params := ps }

/-- One iteration of the `add_event` field loop: the `attendees` key with a
list value renders attendee properties; any other non-`None` value is added
as a fresh content line; `None` values are skipped. -/
def addEventStep (ve : VEvent) (key : String) (value : AddValue) : VEvent :=
  match value with
  | AddValue.atts l =>
    if key = "attendees" then
      { ve with attendee_list := ve.attendee_list ++ l.map buildAttendee }
    else addProp ve key (PropVal.lst l)
  | AddValue.pynone => ve
  | AddValue.pv v => addProp ve key v

/-- Embeds the VEVENT construction of `CalDAVClient.add_event`: a fresh
VEVENT filled from the `event_data` dictionary. -/
def add_event_vevent (event_data : List (String × AddValue)) : VEvent :=
  event_data.foldl (fun ve kv => addEventStep ve kv.1 kv.2) ⟨[], []⟩

/-! ## Write path: `CalDAVClient.update_event` merge -/

/-- Python `dict.pop(key, None)` on an association list. -/
def dictPop {α : Type} (d : List (String × α)) (key : String) :
    List (String × α) :=
  d.filter (fun kv => kv.1 ≠ key)

/-- Python `d[key] = v`: replace in place when the key exists, else append. -/
def dictSet {α : Type} (d : List (String × α)) (key : String) (v : α) :
    List (String × α) :=
  if d.any (fun kv => kv.1 = key) then
    d.map (fun kv => if kv.1 = key then (key, v) else kv)
  else d ++ [(key, v)]

/-- Embeds the per-field branch of `update_event`: when the VEVENT has a
content line of that name its `.value` is overwritten (content lines always
carry `.value`, so the `setattr` fallback is dead), otherwise a fresh line
is added. -/
def setVeventProp (ve : VEvent) (key : String) (v : PropVal) : VEvent :=
  if hasProp ve key then { ve with props := overwriteFirst ve.props key v }
  else addProp ve key v

/-- The `for key, value in updated_data.items()` loop of `update_event`:
`None` values are skipped, the rest go through `setVeventProp`. -/
def updFold (d : List (String × Option PropVal)) (ve : VEvent) : VEvent :=
  d.foldl (fun ve kv =>
    match kv.2 with
    | none => ve
    | some v => setVeventProp ve kv.1 v) ve

/-- Embeds the merge of `CalDAVClient.update_event`: `uid` is popped from
the payload, `dtstamp` is set to the current time converted to UTC-naive,
and the loop `updFold` merges the payload into the VEVENT. -/
def apply_update (updated_data : List (String × Option PropVal))
    (nowUtc : PyDateTime) (ve : VEvent) : VEvent :=
  updFold (dictSet (dictPop updated_data "uid") "dtstamp"
    (some (PropVal.dt nowUtc))) ve

/-! ## Remote server model and `CalDAVClient`

Remote calendars hold events; enumerating a calendar either yields its
events or raises (`caldav.lib.error.NotFoundError` or some other
exception).  `frappe.throw` is modelled as an `Except.error`. -/

/-- An exception raised by the caldav transport. -/
inductive DavError where
  | notFound
  | other
deriving DecidableEq, Repr

/-- An error surfaced by this layer (`frappe.throw` messages, unpacking
failures, attribute errors, or a propagated transport exception). -/
inductive AppError where
  | calendarNotFound
  | eventNotFound
  | missingReference
  | malformed
  | malformedIdentity
  | davError (e : DavError)
deriving DecidableEq, Repr

/-- A remote event resource: its parent calendar id (`event.parent.id`),
its URL (already unquoted), its raw iCal text (`none` models a decode
failure) and its VEVENT. -/
structure SEvent where
  parentId : String
  url : String
  data : Option String
  vevent : VEvent
deriving DecidableEq, Repr

instance {ε α : Type} [DecidableEq ε] [DecidableEq α] :
    DecidableEq (Except ε α) := fun x y =>
  match x, y with
  | Except.error a, Except.error b => decidable_of_iff (a = b) (by simp)
  | Except.error _, Except.ok _ => isFalse (by simp)
  | Except.ok _, Except.error _ => isFalse (by simp)
  | Except.ok a, Except.ok b => decidable_of_iff (a = b) (by simp)

/-- A remote calendar resource: its id and what enumerating its events
produces (either the list or a raised exception). -/
structure SCalendar where
  id : String
  events : Except DavError (List SEvent)
deriving DecidableEq, Repr

/-- A per-user CalDAV client; `principal().calendars()` yields this list. -/
structure CalDAVClient where
  calendars : List SCalendar
deriving DecidableEq, Repr

/-- Does this remote event carry the given wire UID? -/
def eventUidIs (e : SEvent) (uid : String) : Bool :=
  match getProp e.vevent "uid" with
  | some v => pvStr v = uid
  | none => false

/-- caldav `calendar.event_by_uid(uid)`: the first event with that UID, a
`NotFoundError` when there is none (or when the collection itself fails). -/
def event_by_uid (c : SCalendar) (uid : String) : Except DavError SEvent :=
  match c.events with
  | Except.error e => Except.error e
  | Except.ok l =>
    match l.find? (fun e => eventUidIs e uid) with
    | some e => Except.ok e
    | none => Except.error DavError.notFound

/-- Embeds `CalDAVClient.get_calendars`. -/
def CalDAVClient.get_calendars (cl : CalDAVClient) : List SCalendar :=
  cl.calendars

/-- Embeds `CalDAVClient.get_calendar`: linear scan by id; on a miss it
throws when `raise_exception` and otherwise returns `None`. -/
def CalDAVClient.get_calendar (cl : CalDAVClient) (cal_id : String)
    (raise_exception : Bool) : Except AppError (Option SCalendar) :=
  match cl.calendars.find? (fun c => c.id = cal_id) with
  | some c => Except.ok (some c)
  | none =>
    if raise_exception then Except.error AppError.calendarNotFound
    else Except.ok none

/-- Embeds `CalDAVClient.get_events`: `calendar.events()` with only
`NotFoundError` converted to an empty list; any other exception
propagates. -/
def CalDAVClient.get_events (calendar : SCalendar) :
    Except DavError (List SEvent) :=
  match calendar.events with
  | Except.error DavError.notFound => Except.ok []
  | Except.error e => Except.error e
  | Except.ok l => Except.ok l

/-- Embeds `CalDAVClient.get_event`: `event_by_uid` with `NotFoundError`
turned into a throw when `raise_exception` and into `None` otherwise. -/
def CalDAVClient.get_event (calendar : SCalendar) (event_uid : String)
    (raise_exception : Bool) : Except AppError (Option SEvent) :=
  match event_by_uid calendar event_uid with
  | Except.ok e => Except.ok (some e)
  | Except.error DavError.notFound =>
    if raise_exception then Except.error AppError.eventNotFound
    else Except.ok none
  | Except.error e => Except.error (AppError.davError e)

/-- Embeds the shared resolve prologue of `update_event` and
`delete_event` (`if not event: if not calendar or not event_uid: throw;
event = self.get_event(..., raise_exception=True)`), returning the target
together with the number of `get_event` resolutions performed.  An empty
`event_uid` string is Python-falsy and counts as missing. -/
def resolveEventRef (event : Option SEvent) (calendar : Option SCalendar)
    (event_uid : Option String) : Except AppError (SEvent × Nat) :=
  match event with
  | some e => Except.ok (e, 0)
  | none =>
    match calendar, event_uid with
    | some c, some u =>
      if u = "" then Except.error AppError.missingReference
      else
        match CalDAVClient.get_event c u true with
        | Except.ok (some ev) => Except.ok (ev, 1)
        | Except.ok none => Except.error AppError.eventNotFound
        | Except.error e => Except.error e
    | _, _ => Except.error AppError.missingReference

/-- Embeds `CalDAVClient.update_event`: resolve, then merge via
`apply_update` with `dtstamp` stamped from `convert_to_utc(now(),
naive=True)`, then save.  Returns the saved event and the resolution
count. -/
def CalDAVClient.update_event (now : PyDateTime) (systemTz : Int)
    (updated_data : List (String × Option PropVal)) (event : Option SEvent)
    (calendar : Option SCalendar) (event_uid : Option String) :
    Except AppError (SEvent × Nat) :=
  match resolveEventRef event calendar event_uid with
  | Except.error e => Except.error e
  | Except.ok (ev, n) =>
    Except.ok
      ({ ev with
          vevent := apply_update updated_data
            (convert_to_utc now none true systemTz) ev.vevent }, n)

/-- Embeds `CalDAVClient.delete_event`: resolve then delete; returns the
deleted target and the resolution count. -/
def CalDAVClient.delete_event (event : Option SEvent)
    (calendar : Option SCalendar) (event_uid : Option String) :
    Except AppError (SEvent × Nat) :=
  resolveEventRef event calendar event_uid

/-- Embeds `CalDAVClient.delete_calendar`: by instance or by id, with a
throw when neither is supplied (an empty id is Python-falsy); returns the
deleted target and the number of `get_calendar` resolutions. -/
def CalDAVClient.delete_calendar (cl : CalDAVClient)
    (calendar : Option SCalendar) (cal_id : Option String) :
    Except AppError (SCalendar × Nat) :=
  match calendar with
  | some c => Except.ok (c, 0)
  | none =>
    match cal_id with
    | none => Except.error AppError.missingReference
    | some cid =>
      if cid = "" then Except.error AppError.missingReference
      else
        match cl.get_calendar cid true with
        | Except.ok (some c) => Except.ok (c, 1)
        | Except.ok none => Except.error AppError.calendarNotFound
        | Except.error e => Except.error e

/-! ## Inbound translator: `format_event`

The richer variant from
`frappe_calendar/frappe_calendar/doctype/calendar_event/calendar_event.py`
(the `schedule` variant emits the same `user`/`calendar`/`uid`/`name`
fields and a subset of the rest).  A Python crash (missing required
attribute, wrong-typed value) is `none`. -/

/-- An attendee entry of the formatted event dictionary. -/
structure FormattedAttendee where
  email : String
  cn : Option String
  cutype : Option String
  role : Option String
  partstat : Option String
  x_num_guests : Int
  rsvp : Int
deriving DecidableEq, Repr

/-- The formatted event dictionary built by `format_event`; optional keys
are `Option` fields. -/
structure FormattedEvent where
  user : String
  calendar : String
  uid : String
  url : String
  name : String
  dtstart : String
  ical_raw : String
  creation : String
  modified : String
  status : String
  summary : Option String
  location : Option String
  organizer : Option String
  description : Option String
  dtend : Option String
  attendees : List FormattedAttendee
deriving DecidableEq, Repr

/-- Splits `pat ++ rest` from `s`: the remainder when `pat` is a prefix. -/
def stripPat : List Char → List Char → Option (List Char)
  | [], s => some s
  | _ :: _, [] => none
  | p :: ps, c :: cs => if c = p then stripPat ps cs else none

/-- Worker for `pyReplace`; the fuel starts at the string length and each
step consumes at least one character. -/
def replaceAllGo (pat rep : List Char) : Nat → List Char → List Char
  | _, [] => []
  | 0, s => s
  | Nat.succ fuel, c :: rest =>
    match stripPat pat (c :: rest) with
    | some remainder =>
      if pat.isEmpty then c :: replaceAllGo pat rep fuel rest
      else rep ++ replaceAllGo pat rep fuel remainder
    | none => c :: replaceAllGo pat rep fuel rest

/-- Python `s.replace(pat, rep)` for a nonempty pattern: every
non-overlapping occurrence, left to right (the code only ever replaces
`"mailto:"`). -/
def pyReplace (s pat rep : String) : String :=
  String.mk (replaceAllGo pat.data rep.data s.data.length s.data)

/-- Decimal digit accumulator for `pyCint`. -/
def parseNatGo (acc : Nat) : List Char → Option Nat
  | [] => some acc
  | c :: rest =>
    if c.isDigit then parseNatGo (acc * 10 + (c.toNat - 48)) rest else none

/-- frappe `cint` on a string: integer cast with fallback `0` (the cast of
a non-numeric or empty string yields `0`; the callers only ever see
integer-valued `X-NUM-GUESTS` parameters). -/
def pyCint (s : String) : Int :=
  match s.data with
  | '-' :: rest =>
    match parseNatGo 0 rest with
    | some n => -(n : Int)
    | none => 0
  | l =>
    match parseNatGo 0 l with
    | some n => (n : Int)
    | none => 0

/-- frappe `cint` as used on the `get_param` result: `cint(None) = 0`. -/
def cint (s : Option String) : Int :=
  pyCint (s.getD "")

/-- `to_local_str` from `format_event`:
`str(convert_utc_to_system_timezone(value))`; a non-datetime value crashes
in Python (`none` here). -/
def to_local_str (v : PropVal) (systemTz : Int) : Option String :=
  match v with
  | PropVal.dt d => some (pvStr (PropVal.dt (convert_utc_to_system_timezone d systemTz)))
  | _ => none

/-- An optional VEVENT field: present and Python-truthy, per the
`if field_obj and getattr(field_obj, "value", None)` guard. -/
def optFieldVal (ve : VEvent) (key : String) : Option PropVal :=
  match getProp ve key with
  | some v => if truthyPV v then some v else none
  | none => none

/-- Embeds the attendee loop of `format_event`: `mailto:` stripped from the
value, parameters extracted through `get_param` with the documented
defaults, `rsvp` false exactly when the parameter is literally `FALSE`. -/
def formatAttendee (att : Attendee) : FormattedAttendee :=
  { email := pyReplace att.value "mailto:" ""
  , cn := get_param (paramGet att.params "CN") none
  , cutype := get_param (paramGet att.params "CUTYPE") (some "INDIVIDUAL")
  , role := get_param (paramGet att.params "ROLE") (some "REQ-PARTICIPANT")
  , partstat := get_param (paramGet att.params "PARTSTAT") (some "NEEDS-ACTION")
  , x_num_guests := cint (get_param (paramGet att.params "X-NUM-GUESTS") (some "0"))
  , rsvp := if get_param (paramGet att.params "RSVP") none = some "FALSE" then 0 else 1 }

/-- The `organizer` branch of the optional-field loop: present truthy
string values get `mailto:` stripped; a present truthy non-string value
crashes in Python (`value.replace` fails), hence outer `none`. -/
def organizerField (ve : VEvent) : Option (Option String) :=
  match optFieldVal ve "organizer" with
  | some (PropVal.s sv) => some (some (pyReplace sv "mailto:" ""))
  | some _ => none
  | none => some none

/-- The `dtend` branch of the optional-field loop: a present truthy
datetime is converted to the system timezone; a present truthy non-datetime
crashes in Python, hence outer `none`. -/
def dtendField (ve : VEvent) (systemTz : Int) : Option (Option String) :=
  match optFieldVal ve "dtend" with
  | some (PropVal.dt d) =>
    some (some (pvStr (PropVal.dt (convert_utc_to_system_timezone d systemTz))))
  | some _ => none
  | none => some none

/-- The `status` value after the optional-field loop and the
`if not formatted_event.get("status")` default. -/
def statusField (ve : VEvent) : String :=
  match (optFieldVal ve "status").map pvStr with
  | some s => if s = "" then "CONFIRMED" else s
  | none => "CONFIRMED"

/-- Embeds `format_event(user, event)`: the required fields `uid`,
`dtstamp`, `dtstart` must be present (the dict-literal and the eagerly
evaluated `getattr` default all dereference them), `creation`/`modified`
fall back from `created`/`last_modified` to `dtstamp`, optional fields are
copied only when present and truthy via `organizerField`, `dtendField` and
`Option.map pvStr`, `status` defaults to `CONFIRMED`, and attendees go
through `formatAttendee`. -/
def format_event (systemTz : Int) (user : String) (event : SEvent) :
    Option FormattedEvent :=
  let vevent := event.vevent
  let calendar := user ++ "|" ++ event.parentId
  let ical_raw := event.data.getD ""
  match getProp vevent "uid", getProp vevent "dtstamp" with
  | some uidV, some dtstampV =>
    match to_local_str ((getProp vevent "created").getD dtstampV) systemTz,
        to_local_str ((getProp vevent "last_modified").getD dtstampV) systemTz,
        (getProp vevent "dtstart").bind (fun v => to_local_str v systemTz),
        organizerField vevent, dtendField vevent systemTz with
    | some creation, some modified, some dtstart, some organizer, some dtend =>
      some { user := user, calendar := calendar, uid := pvStr uidV
           , url := event.url, name := calendar ++ "|" ++ pvStr uidV
           , dtstart := dtstart, ical_raw := ical_raw, creation := creation
           , modified := modified, status := statusField vevent
           , summary := (optFieldVal vevent "summary").map pvStr
           , location := (optFieldVal vevent "location").map pvStr
           , organizer := organizer
           , description := (optFieldVal vevent "description").map pvStr
           , dtend := dtend
           , attendees := vevent.attendee_list.map formatAttendee }
    | _, _, _, _, _ => none
  | _, _ => none

/-! ## Doctype-level pipeline -/

/-- Embeds the module-level `get_event(name)` of the doctype: unpack the
composite name (a bad arity raises), resolve calendar and event with
`raise_exception=True`, then format.  `server` maps a user to the client
`get_caldav_client` would build. -/
def get_event_by_name (systemTz : Int) (server : String → CalDAVClient)
    (name : String) : Except AppError FormattedEvent :=
  match splitName name with
  | [user, cal_id, event_uid] =>
    let cl := server user
    match cl.get_calendar cal_id true with
    | Except.error e => Except.error e
    | Except.ok none => Except.error AppError.calendarNotFound
    | Except.ok (some calendar) =>
      match CalDAVClient.get_event calendar event_uid true with
      | Except.error e => Except.error e
      | Except.ok none => Except.error AppError.eventNotFound
      | Except.ok (some ev) =>
        (format_event systemTz user ev).elim (Except.error AppError.malformed)
          Except.ok
  | _ => Except.error AppError.malformedIdentity

/-- The list comprehension `[format_event(user, event) for event in
events]`: left to right, the first crash propagates. -/
def formatAll (systemTz : Int) (user : String) :
    List SEvent → Except AppError (List FormattedEvent)
  | [] => Except.ok []
  | e :: rest =>
    match format_event systemTz user e with
    | none => Except.error AppError.malformed
    | some r =>
      match formatAll systemTz user rest with
      | Except.error err => Except.error err
      | Except.ok rs => Except.ok (r :: rs)

/-- One iteration of the `fetch_events` calendar loop: enumerate the
calendar through `get_events`, format every event, extend the accumulated
result; an exception propagates. -/
def fetchStep (systemTz : Int) (user : String)
    (acc : List FormattedEvent) (c : SCalendar) :
    Except AppError (List FormattedEvent) :=
  match CalDAVClient.get_events c with
  | Except.error e => Except.error (AppError.davError e)
  | Except.ok evs =>
    match formatAll systemTz user evs with
    | Except.error e => Except.error e
    | Except.ok fs => Except.ok (acc ++ fs)

/-- The `for calendar in calendars` loop of `fetch_events` with its
`result` accumulator. -/
def fetchLoop (systemTz : Int) (user : String)
    (acc : List FormattedEvent) :
    List SCalendar → Except AppError (List FormattedEvent)
  | [] => Except.ok acc
  | c :: rest =>
    match fetchStep systemTz user acc c with
    | Except.error e => Except.error e
    | Except.ok acc2 => fetchLoop systemTz user acc2 rest

/-- Embeds `fetch_events(user)`: every calendar of the user in turn through
`fetchStep`, starting from the empty result list. -/
def fetch_events (systemTz : Int) (user : String) (cl : CalDAVClient) :
    Except AppError (List FormattedEvent) :=
  fetchLoop systemTz user [] cl.calendars

/-- What the enumeration of a calendar contributes once exceptions are
swallowed: its events on success, nothing on a raised exception. -/
def eventsOrEmpty (c : SCalendar) : List SEvent :=
  match c.events with
  | Except.ok l => l
  | Except.error _ => []

/-! ## Sample remote data for concrete evaluations -/

/-- A well-formed remote VEVENT with the required wire fields. -/
def sampleVEvent : VEvent :=
  ⟨[("uid", PropVal.s "ev1"), ("dtstamp", PropVal.dt ⟨100, none⟩),
    ("dtstart", PropVal.dt ⟨200, none⟩), ("summary", PropVal.s "Standup")], []⟩

/-- A remote event resource holding `sampleVEvent`. -/
def sampleEvent : SEvent :=
  ⟨"cal1", "http://caldav.test/cal1/ev1.ics", some "RAW", sampleVEvent⟩

/-- A calendar whose enumeration succeeds with one event. -/
def sampleCalendar : SCalendar := ⟨"cal1", Except.ok [sampleEvent]⟩

/-- A calendar whose enumeration raises a non-`NotFoundError` exception. -/
def badCalendar : SCalendar := ⟨"cal2", Except.error DavError.other⟩

/-- A client whose principal has the one good calendar. -/
def sampleClient : CalDAVClient := ⟨[sampleCalendar]⟩

/-- A calendar whose enumeration raises `NotFoundError`. -/
def nfCalendar : SCalendar := ⟨"cal3", Except.error DavError.notFound⟩

/-- The record `format_event 0 "u" sampleEvent` produces. -/
def sampleFormatted : FormattedEvent :=
  { user := "u", calendar := "u|cal1", uid := "ev1"
  , url := "http://caldav.test/cal1/ev1.ics", name := "u|cal1|ev1"
  , dtstart := "dt(200,0)", ical_raw := "RAW", creation := "dt(100,0)"
  , modified := "dt(100,0)", status := "CONFIRMED"
  , summary := some "Standup", location := none, organizer := none
  , description := none, dtend := none, attendees := [] }

/-- A minimal remote event with no `status` property and two attendees: one
with no parameters at all, one with `RSVP=FALSE`. -/
def tinyEvent : SEvent :=
  ⟨"c", "u1", some "",
    ⟨[("uid", PropVal.s "e"), ("dtstamp", PropVal.dt ⟨0, none⟩),
      ("dtstart", PropVal.dt ⟨0, none⟩)],
      [⟨"mailto:x@y", []⟩, ⟨"mailto:z@y", [("RSVP", ParamValue.bare "FALSE")]⟩]⟩⟩

/-- The record `format_event 0 "u" tinyEvent` produces. -/
def tinyFormatted : FormattedEvent :=
  { user := "u", calendar := "u|c", uid := "e", url := "u1", name := "u|c|e"
  , dtstart := "dt(0,0)", ical_raw := "", creation := "dt(0,0)"
  , modified := "dt(0,0)", status := "CONFIRMED", summary := none
  , location := none, organizer := none, description := none, dtend := none
  , attendees :=
      [ { email := "x@y", cn := none, cutype := some "INDIVIDUAL"
        , role := some "REQ-PARTICIPANT", partstat := some "NEEDS-ACTION"
        , x_num_guests := 0, rsvp := 1 }
      , { email := "z@y", cn := none, cutype := some "INDIVIDUAL"
        , role := some "REQ-PARTICIPANT", partstat := some "NEEDS-ACTION"
        , x_num_guests := 0, rsvp := 0 } ] }

/-! ## Helper lemmas on property maps -/

theorem getProp_addProp_ne (ve : VEvent) (k key : String) (v : PropVal)
    (h : key ≠ k) : getProp (addProp ve key v) k = getProp ve k := by
  simp [getProp, addProp, List.find?_append, List.find?_cons, h]

theorem find?_overwriteFirst_self (props : List (String × PropVal))
    (k : String) (v : PropVal) (h : props.any (fun p => p.1 = k)) :
    (overwriteFirst props k v).find? (fun p => p.1 = k) = some (k, v) := by
  induction props with
  | nil => simp at h
  | cons p rest ih =>
    by_cases hp : p.1 = k
    · simp [overwriteFirst, hp]
    · have h' : rest.any (fun p => p.1 = k) := by simpa [List.any_cons, hp] using h
      simp [overwriteFirst, hp, List.find?_cons, ih h']

theorem find?_overwriteFirst_ne (props : List (String × PropVal))
    (k key : String) (v : PropVal) (h : key ≠ k) :
    (overwriteFirst props key v).find? (fun p => p.1 = k) =
      props.find? (fun p => p.1 = k) := by
  induction props with
  | nil => rfl
  | cons p rest ih =>
    by_cases hp : p.1 = key
    · simp only [overwriteFirst, if_pos hp, List.find?_cons]
      simp [h, hp]
    · simp only [overwriteFirst, if_neg hp, List.find?_cons]
      by_cases hpk : p.1 = k
      · simp [hpk]
      · simp [hpk, ih]

theorem getProp_setVeventProp_self (ve : VEvent) (k : String) (v : PropVal) :
    getProp (setVeventProp ve k v) k = some v := by
  by_cases h : ve.props.any (fun p => p.1 = k)
  · simp [setVeventProp, hasProp, h, getProp, find?_overwriteFirst_self _ _ _ h]
  · have hnone : ve.props.find? (fun p => p.1 = k) = none := by
      rw [List.find?_eq_none]
      intro x hx
      simp only [List.any_eq_true, not_exists] at h
      intro hxk
      exact h x ⟨hx, hxk⟩
    simp [setVeventProp, hasProp, h, getProp, addProp, List.find?_append, hnone,
      List.find?_cons]

theorem getProp_setVeventProp_ne (ve : VEvent) (k key : String) (v : PropVal)
    (h : key ≠ k) : getProp (setVeventProp ve key v) k = getProp ve k := by
  by_cases hh : ve.props.any (fun p => p.1 = key)
  · simp [setVeventProp, hasProp, hh, getProp, find?_overwriteFirst_ne _ _ _ _ h]
  · simp only [setVeventProp, hasProp, hh]
    exact getProp_addProp_ne _ _ _ _ h

theorem updFold_cons (kv : String × Option PropVal)
    (rest : List (String × Option PropVal)) (ve : VEvent) :
    updFold (kv :: rest) ve =
      updFold rest
        (match kv.2 with
         | none => ve
         | some v => setVeventProp ve kv.1 v) := rfl

theorem updFold_preserve (d : List (String × Option PropVal)) (ve : VEvent)
    (k : String) (h : ∀ kv ∈ d, kv.1 ≠ k ∨ kv.2 = none) :
    getProp (updFold d ve) k = getProp ve k := by
  revert h
  induction d generalizing ve with
  | nil => intro _; rfl
  | cons kv rest ih =>
    intro h
    have htail : ∀ x ∈ rest, x.1 ≠ k ∨ x.2 = none :=
      fun x hx => h x (List.mem_cons_of_mem _ hx)
    rw [updFold_cons]
    cases hv : kv.2 with
    | none =>
      simp only [hv]
      exact ih _ htail
    | some v =>
      simp only [hv]
      rw [ih _ htail]
      rcases h kv (List.mem_cons_self _ _) with hne | hnone
      · exact getProp_setVeventProp_ne _ _ _ _ hne
      · rw [hv] at hnone; cases hnone

theorem updFold_mem (d : List (String × Option PropVal)) (ve : VEvent)
    (k : String) (v : PropVal) (hnd : (d.map Prod.fst).Nodup)
    (hmem : (k, some v) ∈ d) :
    getProp (updFold d ve) k = some v := by
  revert hnd hmem
  induction d generalizing ve with
  | nil => intro _ hmem; cases hmem
  | cons kv rest ih =>
    intro hnd hmem
    have hnd' : (rest.map Prod.fst).Nodup := (List.nodup_cons.mp hnd).2
    rw [updFold_cons]
    rcases List.mem_cons.mp hmem with heq | htail
    · have hrest : ∀ x ∈ rest, x.1 ≠ k ∨ x.2 = none := by
        intro x hx
        left
        intro hxk
        have hk : kv.1 = k := by rw [← heq]
        exact (List.nodup_cons.mp hnd).1 (by
          rw [hk, ← hxk]
          exact List.mem_map_of_mem Prod.fst hx)
      rw [updFold_preserve rest _ k hrest, ← heq]
      exact getProp_setVeventProp_self _ _ _
    · cases hv : kv.2 with
      | none => simp only [hv]; exact ih _ hnd' htail
      | some w => simp only [hv]; exact ih _ hnd' htail

theorem addEventFold_preserve (event_data : List (String × AddValue))
    (ve : VEvent) (k : String)
    (h : ∀ kv ∈ event_data, kv.1 ≠ k ∨ kv.2 = AddValue.pynone) :
    getProp (event_data.foldl (fun ve kv => addEventStep ve kv.1 kv.2) ve) k =
      getProp ve k := by
  revert h
  induction event_data generalizing ve with
  | nil => intro _; rfl
  | cons kv rest ih =>
    intro h
    have htail := fun x hx => h x (List.mem_cons_of_mem _ hx)
    rw [List.foldl_cons, ih _ htail]
    rcases h kv (List.mem_cons_self _ _) with hne | hnone
    · cases hv : kv.2 with
      | pynone => simp [addEventStep, hv]
      | pv v => simp [addEventStep, hv, getProp_addProp_ne _ _ _ _ hne]
      | atts l =>
        by_cases hatt : kv.1 = "attendees"
        · simp [addEventStep, hv, hatt, getProp]
        · simp [addEventStep, hv, hatt, getProp_addProp_ne _ _ _ _ hne]
    · simp [addEventStep, hnone]

/-! ## Helper lemmas on dictionaries -/

theorem mem_dictPop {α : Type} (d : List (String × α)) (key : String)
    (kv : String × α) (h : kv ∈ dictPop d key) : kv ∈ d ∧ kv.1 ≠ key := by
  have h' := List.mem_filter.mp h
  exact ⟨h'.1, by simpa using h'.2⟩

theorem mem_dictPop_of {α : Type} (d : List (String × α)) (key : String)
    (kv : String × α) (h1 : kv ∈ d) (h2 : kv.1 ≠ key) : kv ∈ dictPop d key :=
  List.mem_filter.mpr ⟨h1, by simpa using h2⟩

theorem keys_dictPop_nodup {α : Type} (d : List (String × α)) (key : String)
    (h : (d.map Prod.fst).Nodup) : ((dictPop d key).map Prod.fst).Nodup :=
  List.Nodup.sublist (List.Sublist.map Prod.fst (List.filter_sublist d)) h

theorem keys_dictSet {α : Type} (d : List (String × α)) (key : String) (v : α) :
    (dictSet d key v).map Prod.fst =
      if d.any (fun kv => kv.1 = key) then d.map Prod.fst
      else d.map Prod.fst ++ [key] := by
  unfold dictSet
  by_cases h : d.any (fun kv => kv.1 = key)
  · simp only [h, if_true, List.map_map]
    refine List.map_congr_left ?_
    intro kv _
    by_cases hk : kv.1 = key <;> simp [hk]
  · simp [h]

theorem keys_dictSet_nodup {α : Type} (d : List (String × α)) (key : String)
    (v : α) (h : (d.map Prod.fst).Nodup) :
    ((dictSet d key v).map Prod.fst).Nodup := by
  rw [keys_dictSet]
  by_cases ha : d.any (fun kv => kv.1 = key)
  · simpa [ha] using h
  · have hnot : key ∉ d.map Prod.fst := by
      intro hmem
      rcases List.mem_map.mp hmem with ⟨kv, hkv, hfst⟩
      exact ha (List.any_eq_true.mpr ⟨kv, hkv, by simp [hfst]⟩)
    simp [ha, List.nodup_append, h, hnot]

theorem mem_dictSet_self {α : Type} (d : List (String × α)) (key : String)
    (v : α) : (key, v) ∈ dictSet d key v := by
  unfold dictSet
  by_cases h : d.any (fun kv => kv.1 = key)
  · rcases List.any_eq_true.mp h with ⟨kv, hkv, hfst⟩
    simp only [h, if_true]
    refine List.mem_map.mpr ⟨kv, hkv, ?_⟩
    simp [of_decide_eq_true hfst]
  · simp [h]

theorem mem_dictSet_of_ne {α : Type} (d : List (String × α)) (key : String)
    (v : α) (kv : String × α) (h1 : kv ∈ d) (h2 : kv.1 ≠ key) :
    kv ∈ dictSet d key v := by
  unfold dictSet
  by_cases h : d.any (fun x => x.1 = key)
  · simp only [h, if_true]
    exact List.mem_map.mpr ⟨kv, h1, by simp [h2]⟩
  · simp [h, h1]

theorem mem_dictSet_elim {α : Type} (d : List (String × α)) (key : String)
    (v : α) (kv : String × α) (h : kv ∈ dictSet d key v) :
    kv = (key, v) ∨ kv ∈ d := by
  unfold dictSet at h
  by_cases ha : d.any (fun x => x.1 = key)
  · simp only [ha, if_true] at h
    rcases List.mem_map.mp h with ⟨kv0, hkv0, heq⟩
    by_cases hk : kv0.1 = key
    · left; rw [← heq]; simp [hk]
    · right; rw [← heq]; simpa [hk] using hkv0
  · simp only [ha, if_false] at h
    rcases List.mem_append.mp h with hl | hr
    · right; exact hl
    · left; simpa using hr

/-! ## Helper lemmas on the read path -/

theorem format_event_fields (systemTz : Int) (user : String) (ev : SEvent)
    (r : FormattedEvent) (h : format_event systemTz user ev = some r) :
    r.user = user ∧
    r.calendar = user ++ "|" ++ ev.parentId ∧
    r.url = ev.url ∧
    r.name = r.calendar ++ "|" ++ r.uid ∧
    (∀ uv, getProp ev.vevent "uid" = some uv → r.uid = pvStr uv) ∧
    r.attendees = ev.vevent.attendee_list.map formatAttendee ∧
    (getProp ev.vevent "status" = none → r.status = "CONFIRMED") := by
  simp only [format_event] at h
  split at h
  case h_2 => exact absurd h (by simp)
  case h_1 uidV dtstampV huid hdtstamp =>
    split at h
    case h_2 => exact absurd h (by simp)
    case h_1 creation modified dtstart organizer dtend hcr hmo hds horg hde =>
      rw [Option.some.injEq] at h
      subst h
      refine ⟨rfl, rfl, rfl, rfl, ?_, rfl, ?_⟩
      · intro uv h'
        rw [huid, Option.some.injEq] at h'
        subst h'
        rfl
      · intro hstat
        show statusField ev.vevent = "CONFIRMED"
        simp [statusField, optFieldVal, hstat]

theorem formatAll_ok (systemTz : Int) (user : String) (evs : List SEvent)
    (h : ∀ e ∈ evs, (format_event systemTz user e).isSome) :
    formatAll systemTz user evs =
      Except.ok (evs.filterMap (format_event systemTz user)) := by
  induction evs with
  | nil => rfl
  | cons e rest ih =>
    rcases Option.isSome_iff_exists.mp (h e (List.mem_cons_self _ _)) with ⟨r, hr⟩
    rw [formatAll, hr, ih (fun x hx => h x (List.mem_cons_of_mem _ hx))]
    simp [List.filterMap_cons, hr]

theorem fetchLoop_ok (systemTz : Int) (user : String) (cls : List SCalendar)
    (acc : List FormattedEvent)
    (henum : ∀ c ∈ cls, c.events ≠ Except.error DavError.other)
    (hfmt : ∀ c ∈ cls, ∀ e ∈ eventsOrEmpty c,
      (format_event systemTz user e).isSome) :
    fetchLoop systemTz user acc cls =
      Except.ok (acc ++ (cls.map (fun c =>
        (eventsOrEmpty c).filterMap (format_event systemTz user))).flatten) := by
  revert henum hfmt
  induction cls generalizing acc with
  | nil => intro _ _; simp [fetchLoop]
  | cons c rest ih =>
    intro henum hfmt
    have hc : CalDAVClient.get_events c = Except.ok (eventsOrEmpty c) := by
      cases hce : c.events with
      | ok l => simp [CalDAVClient.get_events, hce, eventsOrEmpty]
      | error e =>
        cases e with
        | notFound => simp [CalDAVClient.get_events, hce, eventsOrEmpty]
        | other => exact absurd hce (henum c (List.mem_cons_self _ _))
    have hstep : fetchStep systemTz user acc c =
        Except.ok (acc ++ (eventsOrEmpty c).filterMap
          (format_event systemTz user)) := by
      simp only [fetchStep, hc,
        formatAll_ok _ _ _ (hfmt c (List.mem_cons_self _ _))]
    simp only [fetchLoop, hstep]
    rw [ih _ (fun x hx => henum x (List.mem_cons_of_mem _ hx))
      (fun x hx => hfmt x (List.mem_cons_of_mem _ hx))]
    simp [List.append_assoc]

/-! ## Verified claims -/

theorem splitOn_append_pipe (u rest : List Char) (hu : '|' ∉ u) :
    (u ++ '|' :: rest).splitOn '|' = u :: rest.splitOn '|' := by
  unfold List.splitOn
  exact List.splitOnP_first _ _ (fun x hx => by simp [ne_of_mem_of_not_mem hx hu]) '|'
    (by simp) rest

theorem splitOn_no_pipe (u : List Char) (hu : '|' ∉ u) :
    u.splitOn '|' = [u] := by
  unfold List.splitOn
  exact List.splitOnP_eq_single _ _ (fun x hx => by simp [ne_of_mem_of_not_mem hx hu])

/-- C1: names built from pipe-free components parse back to the same triple. -/
theorem c1_build_parse_roundtrip (user calId eventUid : String)
    (hu : '|' ∉ user.data) (hc : '|' ∉ calId.data) (he : '|' ∉ eventUid.data) :
    parseEventName (buildEventName user calId eventUid) =
      some (user, calId, eventUid) := by
  have hdata : (buildEventName user calId eventUid).data =
      user.data ++ '|' :: (calId.data ++ '|' :: eventUid.data) := by
    simp [buildEventName]
  simp only [parseEventName, splitName, hdata,
    splitOn_append_pipe _ _ hu, splitOn_append_pipe _ _ hc,
    splitOn_no_pipe _ he, List.map]

theorem c1_build_parse_roundtrip_witness :
    ('|' ∉ "alice".data) ∧
    parseEventName (buildEventName "alice" "cal7" "uid9") =
      some ("alice", "cal7", "uid9") :=
  ⟨by decide, c1_build_parse_roundtrip "alice" "cal7" "uid9" (by decide)
    (by decide) (by decide)⟩

/-- C2: an aware datetime survives the write/read timezone round trip with
its instant intact, and a naive datetime is stamped with the source (or
system) timezone before the UTC conversion strips the tag. -/
theorem c2_timezone_roundtrip (x : PyDateTime) (systemTz off : Int)
    (fromTz : Option Int) (haware : x.tz = some off) (y : PyDateTime)
    (hnaive : y.tz = none) :
    instantOf (convert_utc_to_system_timezone
        (convert_to_utc x none true systemTz) systemTz) = instantOf x ∧
    convert_to_utc y fromTz true systemTz =
      { wall := y.wall - fromTz.getD systemTz, tz := none } := by
  constructor
  · simp [convert_to_utc, convert_utc_to_system_timezone, instantOf, haware]
  · simp [convert_to_utc, hnaive]

theorem c2_timezone_roundtrip_witness :
    instantOf (convert_utc_to_system_timezone
        (convert_to_utc ⟨600, some 330⟩ none true 330) 330) =
      instantOf ⟨600, some 330⟩ ∧
    convert_to_utc ⟨600, none⟩ none true 330 = ⟨600 - 330, none⟩ :=
  c2_timezone_roundtrip ⟨600, some 330⟩ 330 330 none rfl ⟨600, none⟩ rfl

/-- C9 counterexample: a bare empty-string parameter value does not yield
the value itself; `get_param` falls back to the default. -/
theorem c9_counterexample :
    get_param (some (ParamValue.bare "")) (some "d") = some "d" ∧
    get_param (some (ParamValue.bare "")) (some "d") ≠ some "" := by
  constructor <;> decide

/-- C9 (amended): a nonempty sequence yields its first element; a bare
nonempty value yields itself; a falsy value (absent, empty string, empty
sequence) yields the supplied default. -/
theorem c9_get_param_spec (s x : String) (l : List String)
    (default : Option String) (hs : s ≠ "") :
    get_param (some (ParamValue.seq (x :: l))) default = some x ∧
    get_param (some (ParamValue.bare s)) default = some s ∧
    get_param (some (ParamValue.seq [])) default = default ∧
    get_param (some (ParamValue.bare "")) default = default ∧
    get_param none default = default := by
  refine ⟨rfl, ?_, rfl, rfl, rfl⟩
  simp [get_param, hs]

theorem c9_get_param_spec_witness :
    ("a" ≠ "" : Prop) ∧
    (get_param (some (ParamValue.seq ["x", "y"])) (some "d") = some "x" ∧
      get_param (some (ParamValue.bare "a")) (some "d") = some "a" ∧
      get_param (some (ParamValue.seq [])) (some "d") = some "d" ∧
      get_param (some (ParamValue.bare "")) (some "d") = some "d" ∧
      get_param none (some "d") = some "d") :=
  ⟨by decide, c9_get_param_spec "a" "x" ["y"] (some "d") (by decide)⟩

/-- C6: `CalDAVClient.get_event` on a missing UID throws the
event-not-found error when `raise_exception` is set and returns `None`
(no error) otherwise; an existing event is returned in both modes. -/
theorem c6_get_event_notfound_policy (c : SCalendar) (l : List SEvent)
    (uid : String) (hl : c.events = Except.ok l) :
    (l.find? (fun e => eventUidIs e uid) = none →
      CalDAVClient.get_event c uid true = Except.error AppError.eventNotFound ∧
      CalDAVClient.get_event c uid false = Except.ok none) ∧
    (∀ e, l.find? (fun e => eventUidIs e uid) = some e →
      CalDAVClient.get_event c uid true = Except.ok (some e) ∧
      CalDAVClient.get_event c uid false = Except.ok (some e)) := by
  constructor
  · intro h
    constructor <;> simp [CalDAVClient.get_event, event_by_uid, hl, h]
  · intro e h
    constructor <;> simp [CalDAVClient.get_event, event_by_uid, hl, h]

theorem c6_get_event_notfound_policy_witness :
    sampleCalendar.events = Except.ok [sampleEvent] ∧
    (CalDAVClient.get_event sampleCalendar "zz" true =
        Except.error AppError.eventNotFound ∧
      CalDAVClient.get_event sampleCalendar "zz" false = Except.ok none) ∧
    (CalDAVClient.get_event sampleCalendar "ev1" true =
        Except.ok (some sampleEvent) ∧
      CalDAVClient.get_event sampleCalendar "ev1" false =
        Except.ok (some sampleEvent)) :=
  ⟨rfl,
   (c6_get_event_notfound_policy sampleCalendar [sampleEvent] "zz" rfl).1
     (by decide),
   (c6_get_event_notfound_policy sampleCalendar [sampleEvent] "ev1" rfl).2
     sampleEvent (by decide)⟩

/-- C7: the resolve-then-act operations (`update_event`, `delete_event`,
`delete_calendar`) throw the missing-reference error when neither a
resource instance nor the identifying pair is supplied, and a pair-only
call resolves its target exactly once before acting. -/
theorem c7_resolve_then_act (now : PyDateTime) (systemTz : Int)
    (d : List (String × Option PropVal)) (cl : CalDAVClient) (c : SCalendar)
    (u : String) (ev : SEvent) (cid : String) (cal : SCalendar)
    (hres : CalDAVClient.get_event c u true = Except.ok (some ev))
    (hu : u ≠ "")
    (hcal : cl.get_calendar cid true = Except.ok (some cal)) (hcid : cid ≠ "") :
    (CalDAVClient.update_event now systemTz d none none none =
        Except.error AppError.missingReference ∧
      CalDAVClient.update_event now systemTz d none (some c) none =
        Except.error AppError.missingReference ∧
      CalDAVClient.update_event now systemTz d none none (some u) =
        Except.error AppError.missingReference ∧
      CalDAVClient.delete_event none none none =
        Except.error AppError.missingReference ∧
      CalDAVClient.delete_event none (some c) none =
        Except.error AppError.missingReference ∧
      CalDAVClient.delete_event none none (some u) =
        Except.error AppError.missingReference ∧
      cl.delete_calendar none none = Except.error AppError.missingReference) ∧
    ((∃ ev2, CalDAVClient.update_event now systemTz d none (some c) (some u) =
        Except.ok (ev2, 1)) ∧
      CalDAVClient.delete_event none (some c) (some u) = Except.ok (ev, 1) ∧
      cl.delete_calendar none (some cid) = Except.ok (cal, 1)) := by
  refine ⟨⟨rfl, rfl, rfl, rfl, rfl, rfl, rfl⟩, ?_, ?_, ?_⟩
  · refine ⟨{ ev with
        vevent := apply_update d (convert_to_utc now none true systemTz)
          ev.vevent }, ?_⟩
    simp [CalDAVClient.update_event, resolveEventRef, hu, hres]
  · simp [CalDAVClient.delete_event, resolveEventRef, hu, hres]
  · simp [CalDAVClient.delete_calendar, hcid, hcal]

theorem c7_resolve_then_act_witness :
    CalDAVClient.get_event sampleCalendar "ev1" true =
        Except.ok (some sampleEvent) ∧
    ("ev1" ≠ "") ∧
    sampleClient.get_calendar "cal1" true = Except.ok (some sampleCalendar) ∧
    ("cal1" ≠ "") ∧
    (CalDAVClient.delete_event none none none =
        Except.error AppError.missingReference ∧
      CalDAVClient.delete_event none (some sampleCalendar) (some "ev1") =
        Except.ok (sampleEvent, 1) ∧
      sampleClient.delete_calendar none (some "cal1") =
        Except.ok (sampleCalendar, 1)) := by
  have h := c7_resolve_then_act ⟨0, none⟩ 0 [] sampleClient sampleCalendar
    "ev1" sampleEvent "cal1" sampleCalendar (by decide) (by decide)
    (by decide) (by decide)
  exact ⟨by decide, by decide, by decide, by decide,
    h.1.2.2.2.1, h.2.2.1, h.2.2.2⟩

/-- C5 counterexample: a remaining payload field whose value is `None`
neither overwrites the existing VEVENT property nor is added when the
property is absent, contradicting the claim that each remaining field is
merged. -/
theorem c5_counterexample :
    hasProp (apply_update [("location", none)] ⟨0, none⟩
      ⟨[("uid", PropVal.s "ev1")], []⟩) "location" = false ∧
    getProp (apply_update [("summary", none)] ⟨0, none⟩
        ⟨[("summary", PropVal.s "old")], []⟩) "summary" =
      some (PropVal.s "old") := by
  decide

/-- C5 (amended): `update_event` strips any `uid` key from the payload (the
event UID is never overwritten), adds a `dtstamp` field set to the current
time converted to UTC-naive, and each remaining field carrying a non-`None`
value overwrites the VEVENT property of the same name when present or is
added when absent (`None`-valued fields are skipped); the merged event is
persisted. -/
theorem c5_update_event_merge (now : PyDateTime) (systemTz : Int)
    (d : List (String × Option PropVal)) (ev ev2 : SEvent) (n : Nat)
    (hnd : (d.map Prod.fst).Nodup)
    (h : CalDAVClient.update_event now systemTz d (some ev) none none =
      Except.ok (ev2, n)) :
    ev2 = { ev with vevent := (apply_update d
        (convert_to_utc now none true systemTz) ev.vevent) } ∧
    getProp ev2.vevent "uid" = getProp ev.vevent "uid" ∧
    getProp ev2.vevent "dtstamp" =
      some (PropVal.dt (convert_to_utc now none true systemTz)) ∧
    (∀ k v, k ≠ "uid" → k ≠ "dtstamp" → (k, some v) ∈ d →
      getProp ev2.vevent k = some v) := by
  have hev2 : ev2 = { ev with vevent := (apply_update d
      (convert_to_utc now none true systemTz) ev.vevent) } := by
    simp only [CalDAVClient.update_event, resolveEventRef,
      Except.ok.injEq, Prod.mk.injEq] at h
    exact h.1.symm
  subst hev2
  set nowUtc := convert_to_utc now none true systemTz with hnow
  have hnd2 : (((dictSet (dictPop d "uid") "dtstamp"
      (some (PropVal.dt nowUtc))).map Prod.fst)).Nodup :=
    keys_dictSet_nodup _ _ _ (keys_dictPop_nodup _ _ hnd)
  refine ⟨rfl, ?_, ?_, ?_⟩
  · show getProp (apply_update d nowUtc ev.vevent) "uid" =
      getProp ev.vevent "uid"
    unfold apply_update
    refine updFold_preserve _ _ _ ?_
    intro kv hkv
    rcases mem_dictSet_elim _ _ _ _ hkv with heq | hmem
    · left; rw [heq]; exact (by decide : ("dtstamp" : String) ≠ "uid")
    · left; exact (mem_dictPop _ _ _ hmem).2
  · show getProp (apply_update d nowUtc ev.vevent) "dtstamp" =
      some (PropVal.dt nowUtc)
    unfold apply_update
    exact updFold_mem _ _ _ _ hnd2 (mem_dictSet_self _ _ _)
  · intro k v hku hkd hmem
    show getProp (apply_update d nowUtc ev.vevent) k = some v
    unfold apply_update
    exact updFold_mem _ _ _ _ hnd2
      (mem_dictSet_of_ne _ _ _ _ (mem_dictPop_of _ _ _ hmem hku) hkd)

theorem c5_update_event_merge_witness :
    (([("summary", some (PropVal.s "New")), ("uid", some (PropVal.s "hack")),
        ("location", none)].map Prod.fst).Nodup) ∧
    getProp (apply_update [("summary", some (PropVal.s "New")),
        ("uid", some (PropVal.s "hack")), ("location", none)]
        (convert_to_utc ⟨500, none⟩ none true 330) sampleEvent.vevent) "uid" =
      getProp sampleEvent.vevent "uid" ∧
    getProp (apply_update [("summary", some (PropVal.s "New")),
        ("uid", some (PropVal.s "hack")), ("location", none)]
        (convert_to_utc ⟨500, none⟩ none true 330) sampleEvent.vevent)
        "summary" = some (PropVal.s "New") := by
  have h := c5_update_event_merge ⟨500, none⟩ 330
    [("summary", some (PropVal.s "New")), ("uid", some (PropVal.s "hack")),
      ("location", none)] sampleEvent
    { sampleEvent with vevent := (apply_update
        [("summary", some (PropVal.s "New")), ("uid", some (PropVal.s "hack")),
          ("location", none)]
        (convert_to_utc ⟨500, none⟩ none true 330) sampleEvent.vevent) } 0
    (by decide) rfl
  exact ⟨by decide, h.2.1,
    h.2.2.2 "summary" (PropVal.s "New") (by decide) (by decide) (by decide)⟩

/-- C10: `None`-valued fields are silently skipped on both write paths:
`add_event` omits such keys from the created VEVENT entirely, and the
`update_event` merge leaves the existing property unchanged when the
payload maps the key to `None`. -/
theorem c10_none_values_skipped (event_data : List (String × AddValue))
    (d : List (String × Option PropVal)) (now : PyDateTime) (ve : VEvent)
    (k k' : String)
    (ha : ∀ kv ∈ event_data, kv.1 ≠ k ∨ kv.2 = AddValue.pynone)
    (hb : ∀ kv ∈ d, kv.1 ≠ k' ∨ kv.2 = none) (hk' : k' ≠ "dtstamp") :
    getProp (add_event_vevent event_data) k = none ∧
    getProp (apply_update d now ve) k' = getProp ve k' := by
  constructor
  · unfold add_event_vevent
    rw [addEventFold_preserve _ _ _ ha]
    rfl
  · unfold apply_update
    refine updFold_preserve _ _ _ ?_
    intro kv hkv
    rcases mem_dictSet_elim _ _ _ _ hkv with heq | hmem
    · left; rw [heq]; exact fun hcon => hk' hcon.symm
    · exact hb kv (mem_dictPop _ _ _ hmem).1

theorem c10_none_values_skipped_witness :
    (∀ kv ∈ ([("summary", AddValue.pynone),
        ("dtstart", AddValue.pv (PropVal.dt ⟨1, none⟩))] :
          List (String × AddValue)),
      kv.1 ≠ "summary" ∨ kv.2 = AddValue.pynone) ∧
    getProp (add_event_vevent [("summary", AddValue.pynone),
        ("dtstart", AddValue.pv (PropVal.dt ⟨1, none⟩))]) "summary" = none ∧
    getProp (apply_update [("location", none)] ⟨0, none⟩ sampleVEvent)
        "location" = getProp sampleVEvent "location" := by
  have h := c10_none_values_skipped
    [("summary", AddValue.pynone), ("dtstart", AddValue.pv (PropVal.dt ⟨1, none⟩))]
    [("location", none)] ⟨0, none⟩ sampleVEvent "summary" "location"
    (by decide) (by decide) (by decide)
  exact ⟨by decide, h.1, h.2⟩

/-- C3: inbound default-filling by `format_event`: a VEVENT with no
`status` property yields `status = "CONFIRMED"`; an attendee with no
`ROLE` parameter gets `REQ-PARTICIPANT`; no `RSVP` parameter gives a true
(`1`) rsvp; an `RSVP` parameter that is literally `FALSE` gives a false
(`0`) rsvp. -/
theorem c3_inbound_defaults (systemTz : Int) (user : String) (ev : SEvent)
    (r : FormattedEvent) (hfmt : format_event systemTz user ev = some r)
    (hstat : getProp ev.vevent "status" = none) (a b : Attendee)
    (hrole : paramGet a.params "ROLE" = none)
    (hrsvp : paramGet a.params "RSVP" = none)
    (hbrsvp : paramGet b.params "RSVP" = some (ParamValue.bare "FALSE")) :
    r.status = "CONFIRMED" ∧
    r.attendees = ev.vevent.attendee_list.map formatAttendee ∧
    (formatAttendee a).role = some "REQ-PARTICIPANT" ∧
    (formatAttendee a).rsvp = 1 ∧
    (formatAttendee b).rsvp = 0 := by
  obtain ⟨-, -, -, -, -, hatt, hst⟩ :=
    format_event_fields systemTz user ev r hfmt
  refine ⟨hst hstat, hatt, ?_, ?_, ?_⟩
  · simp [formatAttendee, hrole, get_param]
  · simp [formatAttendee, hrsvp, get_param]
  · simp [formatAttendee, hbrsvp, get_param]

theorem c3_inbound_defaults_witness :
    format_event 0 "u" tinyEvent = some tinyFormatted ∧
    getProp tinyEvent.vevent "status" = none ∧
    (tinyFormatted.status = "CONFIRMED" ∧
      tinyFormatted.attendees =
        tinyEvent.vevent.attendee_list.map formatAttendee ∧
      (formatAttendee ⟨"mailto:x@y", []⟩).role = some "REQ-PARTICIPANT" ∧
      (formatAttendee ⟨"mailto:x@y", []⟩).rsvp = 1 ∧
      (formatAttendee ⟨"mailto:z@y",
        [("RSVP", ParamValue.bare "FALSE")]⟩).rsvp = 0) :=
  ⟨by decide, by decide,
    c3_inbound_defaults 0 "u" tinyEvent tinyFormatted (by decide) (by decide)
      ⟨"mailto:x@y", []⟩ ⟨"mailto:z@y", [("RSVP", ParamValue.bare "FALSE")]⟩
      (by decide) (by decide) (by decide)⟩

/-- C4 counterexample: a calendar whose enumeration raises an exception
other than `NotFoundError` aborts the whole listing: with one good and one
broken calendar, `fetch_events` returns the exception instead of the good
calendar's events. -/
theorem c4_counterexample :
    fetch_events 0 "u" ⟨[sampleCalendar, badCalendar]⟩ =
      Except.error (AppError.davError DavError.other) ∧
    fetch_events 0 "u" ⟨[sampleCalendar]⟩ = Except.ok [sampleFormatted] := by
  constructor <;> decide

/-- C4 (amended): when every failing calendar raises `NotFoundError` (the
only exception `get_events` swallows), the aggregate listing returns the
translated events of the remaining calendars and each failing calendar
contributes an empty result; any other exception aborts the listing. -/
theorem c4_notfound_calendars_skipped (systemTz : Int) (user : String)
    (cls : List SCalendar)
    (henum : ∀ c ∈ cls, c.events ≠ Except.error DavError.other)
    (hfmt : ∀ c ∈ cls, ∀ e ∈ eventsOrEmpty c,
      (format_event systemTz user e).isSome) :
    fetch_events systemTz user ⟨cls⟩ =
      Except.ok ((cls.map (fun c =>
        (eventsOrEmpty c).filterMap (format_event systemTz user))).flatten) := by
  unfold fetch_events
  rw [fetchLoop_ok systemTz user cls [] henum hfmt]
  simp

theorem c4_notfound_calendars_skipped_witness :
    (∀ c ∈ [sampleCalendar, nfCalendar],
      c.events ≠ Except.error DavError.other) ∧
    eventsOrEmpty nfCalendar = [] ∧
    fetch_events 0 "u" ⟨[sampleCalendar, nfCalendar]⟩ =
      Except.ok (([sampleCalendar, nfCalendar].map (fun c =>
        (eventsOrEmpty c).filterMap (format_event 0 "u"))).flatten) :=
  ⟨by decide, by decide,
    c4_notfound_calendars_skipped 0 "u" [sampleCalendar, nfCalendar]
      (by decide) (by decide)⟩

/-- C8: every record read back from the server has
`name = calendar ++ "|" ++ uid` with `calendar = user ++ "|" ++ calId` of
the calendar it was fetched from, and that name is exactly the identity
the read path resolves back to the same record. -/
theorem c8_name_identity (systemTz : Int) (server : String → CalDAVClient)
    (user euid : String) (cal : SCalendar) (l : List SEvent) (ev : SEvent)
    (r : FormattedEvent)
    (hu : '|' ∉ user.data) (hc : '|' ∉ cal.id.data) (he : '|' ∉ euid.data)
    (hfindc : (server user).calendars.find? (fun c => c.id = cal.id) =
      some cal)
    (hparent : ev.parentId = cal.id)
    (hevents : cal.events = Except.ok l)
    (hfind : l.find? (fun e => eventUidIs e euid) = some ev)
    (hfmt : format_event systemTz user ev = some r) :
    r.calendar = user ++ "|" ++ cal.id ∧
    r.name = r.calendar ++ "|" ++ r.uid ∧
    get_event_by_name systemTz server r.name = Except.ok r := by
  obtain ⟨-, hcal, -, hname, huid', -, -⟩ :=
    format_event_fields systemTz user ev r hfmt
  have hrcal : r.calendar = user ++ "|" ++ cal.id := by rw [hcal, hparent]
  have huidis : eventUidIs ev euid = true := by
    have h' := List.find?_some hfind
    simpa using h'
  have hruid : r.uid = euid := by
    cases hguid : getProp ev.vevent "uid" with
    | none => simp [eventUidIs, hguid] at huidis
    | some uv =>
      simp only [eventUidIs, hguid, decide_eq_true_eq] at huidis
      rw [huid' uv hguid]
      exact huidis
  refine ⟨hrcal, hname, ?_⟩
  have hnm : r.name = user ++ "|" ++ cal.id ++ "|" ++ euid := by
    rw [hname, hrcal, hruid]
  have hsplit : splitName r.name = [user, cal.id, euid] := by
    rw [hnm]
    have hdata : (user ++ "|" ++ cal.id ++ "|" ++ euid).data =
        user.data ++ '|' :: (cal.id.data ++ '|' :: euid.data) := by
      simp
    simp only [splitName, hdata, splitOn_append_pipe _ _ hu,
      splitOn_append_pipe _ _ hc, splitOn_no_pipe _ he, List.map]
  unfold get_event_by_name
  rw [hsplit]
  simp only [CalDAVClient.get_calendar, hfindc, CalDAVClient.get_event,
    event_by_uid, hevents, hfind, hfmt]
  rfl

theorem c8_name_identity_witness :
    ('|' ∉ "u".data) ∧
    format_event 0 "u" sampleEvent = some sampleFormatted ∧
    (sampleFormatted.calendar = "u" ++ "|" ++ sampleCalendar.id ∧
      sampleFormatted.name =
        sampleFormatted.calendar ++ "|" ++ sampleFormatted.uid ∧
      get_event_by_name 0 (fun _ => sampleClient) sampleFormatted.name =
        Except.ok sampleFormatted) :=
  ⟨by decide, by decide,
    c8_name_identity 0 (fun _ => sampleClient) "u" "ev1" sampleCalendar
      [sampleEvent] sampleEvent sampleFormatted (by decide) (by decide)
      (by decide) (by decide) (by decide) (by decide) (by decide) (by decide)⟩

end Schedule
